import Mathlib

/-!
Verification of the reliability middleware in `opta/middleware.py`
(circuit breaker, rate limiter, retry handler, metrics, orchestrator).

Shallow embedding: each Python class becomes a Lean structure, each method
a pure function from state to state (plus the returned value).  Wall-clock
timestamps are rationals; every call to `time.time()` in the source becomes
an explicit `now` parameter.  Python `int(x)` truncation toward zero is
`pyInt`.  Python truthiness of `self._last_failure_time` (None and 0.0 are
falsy) is modelled explicitly.
-/

namespace Opta

/-- Python `int(x)` for a rational: truncation toward zero. -/
def pyInt (q : ℚ) : ℤ := if q < 0 then ⌈q⌉ else ⌊q⌋

/-- `CircuitState` enum from `middleware.py`. -/
inductive CircuitState where
  | CLOSED
  | OPEN
  | HALF_OPEN
deriving DecidableEq, Repr

/-- `CircuitBreakerConfig` dataclass (defaults as in the source). -/
structure CircuitBreakerConfig where
  failure_threshold : ℕ := 5
  recovery_timeout : ℚ := 30
  half_open_max_calls : ℕ := 3
  success_threshold : ℕ := 2
deriving DecidableEq, Repr

/-- Mutable state of a `CircuitBreaker` instance (lock elided: all methods
are serialized by one lock, so the embedding is sequential). -/
structure CircuitBreaker where
  config : CircuitBreakerConfig
  state_ : CircuitState
  failure_count : ℤ
  success_count : ℕ
  last_failure_time : Option ℚ
  half_open_calls : ℕ
deriving DecidableEq, Repr

/-- `CircuitBreaker.__init__`. -/
def CircuitBreaker.init (config : CircuitBreakerConfig) : CircuitBreaker :=
  { config := config
    state_ := CircuitState.CLOSED
    failure_count := 0
    success_count := 0
    last_failure_time := none
    half_open_calls := 0 }

/-- The `state` property: lazy Open→HalfOpen transition on read.  The Python
guard `self._last_failure_time and now - t >= recovery_timeout` treats both
`None` and `0.0` as falsy, hence the `t ≠ 0` conjunct.  Returns the observed
state and the (possibly updated) breaker. -/
def CircuitBreaker.stateRead (cb : CircuitBreaker) (now : ℚ) :
    CircuitState × CircuitBreaker :=
  if cb.state_ = CircuitState.OPEN then
    match cb.last_failure_time with
    | some t =>
        if t ≠ 0 ∧ cb.config.recovery_timeout ≤ now - t then
          let cb' := { cb with
            state_ := CircuitState.HALF_OPEN
            half_open_calls := 0
            success_count := 0 }
          (CircuitState.HALF_OPEN, cb')
        else (CircuitState.OPEN, cb)
    | none => (CircuitState.OPEN, cb)
  else (cb.state_, cb)

/-- `CircuitBreaker.can_execute`. -/
def CircuitBreaker.can_execute (cb : CircuitBreaker) (now : ℚ) :
    Bool × CircuitBreaker :=
  let sc := cb.stateRead now
  match sc.1 with
  | CircuitState.CLOSED => (true, sc.2)
  | CircuitState.OPEN => (false, sc.2)
  | CircuitState.HALF_OPEN =>
      if sc.2.half_open_calls < sc.2.config.half_open_max_calls then
        (true, { sc.2 with half_open_calls := sc.2.half_open_calls + 1 })
      else (false, sc.2)

/-- `CircuitBreaker.record_success`. -/
def CircuitBreaker.record_success (cb : CircuitBreaker) : CircuitBreaker :=
  if cb.state_ = CircuitState.HALF_OPEN then
    let sc := cb.success_count + 1
    if cb.config.success_threshold ≤ sc then
      { cb with success_count := sc, state_ := CircuitState.CLOSED,
                failure_count := 0 }
    else { cb with success_count := sc }
  else if cb.state_ = CircuitState.CLOSED then
    { cb with failure_count := max 0 (cb.failure_count - 1) }
  else cb

/-- `CircuitBreaker.record_failure` (`now` is the `time.time()` it reads). -/
def CircuitBreaker.record_failure (cb : CircuitBreaker) (now : ℚ) :
    CircuitBreaker :=
  let cb1 := { cb with
    failure_count := cb.failure_count + 1
    last_failure_time := some now }
  if cb1.state_ = CircuitState.HALF_OPEN then
    { cb1 with state_ := CircuitState.OPEN }
  else if cb1.state_ = CircuitState.CLOSED ∧
      (cb1.config.failure_threshold : ℤ) ≤ cb1.failure_count then
    { cb1 with state_ := CircuitState.OPEN }
  else cb1

/-- `CircuitBreaker.reset`. -/
def CircuitBreaker.reset (cb : CircuitBreaker) : CircuitBreaker :=
  { cb with
    state_ := CircuitState.CLOSED
    failure_count := 0
    success_count := 0
    last_failure_time := none
    half_open_calls := 0 }

/-- A sequence of consecutive `record_failure` calls at the given times. -/
def recordFailures (cb : CircuitBreaker) (ts : List ℚ) : CircuitBreaker :=
  ts.foldl (fun c t => c.record_failure t) cb

/-- A sequence of `n` consecutive `record_success` calls. -/
def recordSuccesses (cb : CircuitBreaker) : ℕ → CircuitBreaker
  | 0 => cb
  | n + 1 => (recordSuccesses cb n).record_success

/-- `RateLimiterConfig` dataclass (defaults as in the source). -/
structure RateLimiterConfig where
  requests_per_minute : ℕ := 60
  tokens_per_minute : ℕ := 100000
  burst_allowance : ℚ := 3 / 2
deriving DecidableEq, Repr

/-- Mutable state of a `RateLimiter`: the two time-ordered logs,
oldest first (the deques are appended at the back, popped at the front). -/
structure RateLimiter where
  config : RateLimiterConfig
  request_timestamps : List ℚ
  token_usage : List (ℚ × ℕ)
deriving DecidableEq, Repr

/-- `RateLimiter.__init__`. -/
def RateLimiter.init (config : RateLimiterConfig) : RateLimiter :=
  { config := config, request_timestamps := [], token_usage := [] }

/-- `max_requests = int(requests_per_minute * burst_allowance)`. -/
def RateLimiterConfig.maxRequests (cfg : RateLimiterConfig) : ℤ :=
  pyInt ((cfg.requests_per_minute : ℚ) * cfg.burst_allowance)

/-- `max_tokens = int(tokens_per_minute * burst_allowance)`. -/
def RateLimiterConfig.maxTokens (cfg : RateLimiterConfig) : ℤ :=
  pyInt ((cfg.tokens_per_minute : ℚ) * cfg.burst_allowance)

/-- The request log after the `while ... popleft()` pruning loop of
`can_proceed`: drop entries strictly older than `window_start = now - 60`. -/
def RateLimiter.pruneReqs (rl : RateLimiter) (now : ℚ) : List ℚ :=
  rl.request_timestamps.dropWhile (fun t => decide (t < now - 60))

/-- The token log after the pruning loop of `can_proceed`. -/
def RateLimiter.pruneToks (rl : RateLimiter) (now : ℚ) : List (ℚ × ℕ) :=
  rl.token_usage.dropWhile (fun p => decide (p.1 < now - 60))

/-- `RateLimiter.can_proceed`.  Returns `none` when the source would raise
`IndexError` (indexing `self._request_timestamps[0]` on an empty deque,
possible only when `max_requests ≤ 0`); otherwise
`some ((can_proceed, wait_time), updated_state)`.  Note the source's token
branch: when `total_tokens + estimated_tokens > max_tokens` but the token
log is empty, control falls through to `return True, None`. -/
def RateLimiter.can_proceed (rl : RateLimiter) (now : ℚ)
    (estimated_tokens : ℕ := 0) :
    Option ((Bool × Option ℚ) × RateLimiter) :=
  let window_start := now - 60
  let reqs := rl.pruneReqs now
  let toks := rl.pruneToks now
  let rl' : RateLimiter := { rl with
    request_timestamps := reqs, token_usage := toks }
  if rl.config.maxRequests ≤ (reqs.length : ℤ) then
    match reqs.head? with
    | none => none
    | some t0 => some ((false, some (max (1 / 10) (t0 - window_start))), rl')
  else
    let total_tokens : ℕ := (toks.map Prod.snd).sum
    if rl.config.maxTokens < (total_tokens : ℤ) + (estimated_tokens : ℤ) then
      match toks.head? with
      | some p => some ((false, some (max (1 / 10) (p.1 - window_start))), rl')
      | none => some ((true, none), rl')
    else
      some ((true, none), rl')

/-- `RateLimiter.record_request` (`now` is its `time.time()` read). -/
def RateLimiter.record_request (rl : RateLimiter) (now : ℚ)
    (tokens_used : ℕ := 0) : RateLimiter :=
  { rl with
    request_timestamps := rl.request_timestamps ++ [now]
    token_usage :=
      if 0 < tokens_used then rl.token_usage ++ [(now, tokens_used)]
      else rl.token_usage }

/-- `RetryConfig` dataclass (defaults as in the source). -/
structure RetryConfig where
  max_retries : ℕ := 3
  base_delay : ℚ := 1
  max_delay : ℚ := 60
  exponential_base : ℚ := 2
  jitter : ℚ := 1 / 10
deriving DecidableEq, Repr

/-- The deterministic part of `RetryHandler.calculate_delay`:
`min(base_delay * exponential_base ** attempt, max_delay)`. -/
def RetryConfig.delayNoJitter (cfg : RetryConfig) (attempt : ℕ) : ℚ :=
  min (cfg.base_delay * cfg.exponential_base ^ attempt) cfg.max_delay

/-- `RetryHandler.calculate_delay`: `u` is the value sampled by
`random.uniform(-jitter_range, jitter_range)`; it satisfies
`|u| ≤ delayNoJitter * jitter` which theorems take as a hypothesis. -/
def RetryConfig.calculate_delay (cfg : RetryConfig) (attempt : ℕ)
    (u : ℚ) : ℚ :=
  let delay := cfg.base_delay * cfg.exponential_base ^ attempt
  let delay := min delay cfg.max_delay
  let delay := delay + u
  max (1 / 10) delay

/-- `RetryHandler.should_retry`.  The error classifier
(`LiteLLMExceptions.get_ex_info`, an external collaborator living outside
this module) is abstracted as a function to `Option Bool`: `none` models
`ex_info.retry is None`, and the source's
`ex_info.retry if ex_info.retry is not None else False` is `getD false`. -/
def RetryConfig.should_retry {ε : Type} (cfg : RetryConfig)
    (classifier : ε → Option Bool) (attempt : ℕ) (e : ε) : Bool :=
  if cfg.max_retries ≤ attempt then false
  else (classifier e).getD false

/-- `MiddlewareMetrics` dataclass. -/
structure MiddlewareMetrics where
  total_requests : ℕ := 0
  successful_requests : ℕ := 0
  failed_requests : ℕ := 0
  retried_requests : ℕ := 0
  circuit_breaker_rejections : ℕ := 0
  rate_limit_rejections : ℕ := 0
  total_tokens_sent : ℕ := 0
  total_tokens_received : ℕ := 0
  total_cost : ℚ := 0
  last_request_time : Option ℚ := none
  average_latency_ms : ℚ := 0
  latencies : List ℚ := []
deriving DecidableEq, Repr

/-- A freshly constructed `MiddlewareMetrics()` (all dataclass defaults). -/
def MiddlewareMetrics.init : MiddlewareMetrics := {}

/-- `MiddlewareMetrics.record_latency`: append to the `maxlen=100` deque
(evicting from the front on overflow) and recompute the mean. -/
def MiddlewareMetrics.record_latency (m : MiddlewareMetrics)
    (latency_ms : ℚ) : MiddlewareMetrics :=
  let l := m.latencies ++ [latency_ms]
  let l := if 100 < l.length then l.drop (l.length - 100) else l
  { m with
    latencies := l
    average_latency_ms :=
      if l = [] then m.average_latency_ms else l.sum / (l.length : ℚ) }

/-- `MiddlewareConfig` dataclass. -/
structure MiddlewareConfig where
  circuit_breaker : CircuitBreakerConfig := {}
  rate_limiter : RateLimiterConfig := {}
  retry : RetryConfig := {}
  enabled : Bool := true
  verbose : Bool := false

/-- State of a `ProductionMiddleware` instance. -/
structure ProductionMiddleware where
  config : MiddlewareConfig
  circuit_breaker : CircuitBreaker
  rate_limiter : RateLimiter
  metrics : MiddlewareMetrics

/-- `ProductionMiddleware.__init__`. -/
def ProductionMiddleware.init (config : MiddlewareConfig) :
    ProductionMiddleware :=
  { config := config
    circuit_breaker := CircuitBreaker.init config.circuit_breaker
    rate_limiter := RateLimiter.init config.rate_limiter
    metrics := MiddlewareMetrics.init }

/-- One attempt of the wrapped operation, as observed by `execute`:
the outcome of `func(*args, **kwargs)` and the wall-clock times of the
`time.time()` reads surrounding it. -/
structure AttemptOutcome (ε α : Type) where
  result : Except ε α
  t_start : ℚ
  t_end : ℚ

/-- What `ProductionMiddleware.execute` does for the caller: return a
value, raise `CircuitOpenError`, raise `RateLimitExceededError`, re-raise
the operation's own error, or (dead code in the source) fall off the end
returning `None`. -/
inductive ExecOutcome (ε α : Type) where
  | ok (a : α)
  | circuitOpenErr
  | rateLimitExceededErr (wait : ℚ)
  | raised (e : ε)
  | noneReturn
deriving DecidableEq, Repr

/-- Result of the retry loop: outcome plus the components' final states. -/
structure LoopResult (ε α : Type) where
  outcome : ExecOutcome ε α
  cb : CircuitBreaker
  rl : RateLimiter
  m : MiddlewareMetrics

/-- The `for attempt in range(max_retries + 1)` loop of `execute`.
`fuel` counts the remaining iterations, `attempt` the current index,
`last_e` the `last_exception` variable, `t_last` the time of the most
recent failure (used by the post-loop `record_failure`).  `tokensOf`
abstracts `_extract_tokens` (shape of the external API response). -/
def executeLoop {ε α : Type} (retry : RetryConfig)
    (classifier : ε → Option Bool) (tokensOf : α → ℕ)
    (attempts : ℕ → AttemptOutcome ε α) :
    ℕ → ℕ → Option ε → ℚ → CircuitBreaker → RateLimiter →
    MiddlewareMetrics → LoopResult ε α
  | 0, _attempt, last_e, t_last, cb, rl, m =>
      -- loop exhausted: record_failure, failed += 1, re-raise if truthy
      { outcome := match last_e with
          | some e => ExecOutcome.raised e
          | none => ExecOutcome.noneReturn
        cb := cb.record_failure t_last
        rl := rl
        m := { m with failed_requests := m.failed_requests + 1 } }
  | fuel + 1, attempt, _last_e, _t_last, cb, rl, m =>
      let env := attempts attempt
      match env.result with
      | Except.ok res =>
          let cb' := cb.record_success
          let latency_ms := (env.t_end - env.t_start) * 1000
          let m1 := { m with
            successful_requests := m.successful_requests + 1 }
          let m2 := m1.record_latency latency_ms
          let m3 := { m2 with last_request_time := some env.t_end }
          let tokens_used := tokensOf res
          let rl' := rl.record_request env.t_end tokens_used
          let m4 :=
            if 0 < tokens_used then
              { m3 with total_tokens_received :=
                  m3.total_tokens_received + tokens_used }
            else m3
          { outcome := ExecOutcome.ok res, cb := cb', rl := rl', m := m4 }
      | Except.error e =>
          if retry.should_retry classifier attempt e then
            -- retried_requests += 1, sleep(calculate_delay attempt), continue
            executeLoop retry classifier tokensOf attempts fuel
              (attempt + 1) (some e) env.t_end cb rl
              { m with retried_requests := m.retried_requests + 1 }
          else
            { outcome := ExecOutcome.raised e
              cb := cb.record_failure env.t_end
              rl := rl
              m := { m with failed_requests := m.failed_requests + 1 } }

/-- `ProductionMiddleware.execute`.  `now` is the admission-time clock;
`attempts` supplies the outcome and timing of each invocation of the
wrapped operation; `classifier`/`tokensOf` are the external collaborators.
`none` models the propagated `IndexError` from `can_proceed`'s dead branch.
The `CircuitOpenError` message formats `self.circuit_breaker.state`, so the
rejection path performs one more state read. -/
def ProductionMiddleware.execute {ε α : Type} (mw : ProductionMiddleware)
    (now : ℚ) (estimated_tokens : ℕ) (attempts : ℕ → AttemptOutcome ε α)
    (classifier : ε → Option Bool) (tokensOf : α → ℕ) :
    Option (ExecOutcome ε α × ProductionMiddleware) :=
  if mw.config.enabled = false then
    match (attempts 0).result with
    | Except.ok a => some (ExecOutcome.ok a, mw)
    | Except.error e => some (ExecOutcome.raised e, mw)
  else
    let m0 := { mw.metrics with
      total_requests := mw.metrics.total_requests + 1 }
    let ce := mw.circuit_breaker.can_execute now
    if ce.1 = false then
      some (ExecOutcome.circuitOpenErr,
        { mw with
          circuit_breaker := (ce.2.stateRead now).2
          metrics := { m0 with circuit_breaker_rejections :=
            m0.circuit_breaker_rejections + 1 } })
    else
      match mw.rate_limiter.can_proceed now estimated_tokens with
      | none => none
      | some ((canp, wait), rl1) =>
          if canp = false then
            some (ExecOutcome.rateLimitExceededErr (wait.getD 0),
              { mw with
                circuit_breaker := ce.2
                rate_limiter := rl1
                metrics := { m0 with rate_limit_rejections :=
                  m0.rate_limit_rejections + 1 } })
          else
            let r := executeLoop mw.config.retry classifier tokensOf
              attempts (mw.config.retry.max_retries + 1) 0 none now
              ce.2 rl1 m0
            some (r.outcome,
              { mw with
                circuit_breaker := r.cb
                rate_limiter := r.rl
                metrics := r.m })

/-- `ProductionMiddleware.reset`: reset the breaker, replace the metrics
with a fresh `MiddlewareMetrics()`; the rate limiter is not touched. -/
def ProductionMiddleware.reset (mw : ProductionMiddleware) :
    ProductionMiddleware :=
  { mw with
    circuit_breaker := mw.circuit_breaker.reset
    metrics := MiddlewareMetrics.init }

/-- The state of the breaker after `j` successive `can_execute` calls. -/
def canExecuteStateIter (cb : CircuitBreaker) (now : ℚ) :
    ℕ → CircuitBreaker
  | 0 => cb
  | j + 1 => ((canExecuteStateIter cb now j).can_execute now).2

/-! ### Helper lemmas (shared across claims) -/

theorem stateRead_failure_count (cb : CircuitBreaker) (now : ℚ) :
    ((cb.stateRead now).2).failure_count = cb.failure_count := by
  unfold CircuitBreaker.stateRead
  split
  · split
    · split <;> rfl
    · rfl
  · rfl

theorem can_execute_failure_count (cb : CircuitBreaker) (now : ℚ) :
    ((cb.can_execute now).2).failure_count = cb.failure_count := by
  unfold CircuitBreaker.can_execute
  have h := stateRead_failure_count cb now
  cases hsc : (cb.stateRead now).1 <;> simp_all
  split <;> simp_all

theorem record_failure_failure_count (cb : CircuitBreaker) (now : ℚ) :
    (cb.record_failure now).failure_count = cb.failure_count + 1 := by
  unfold CircuitBreaker.record_failure
  dsimp only
  split
  · rfl
  · split <;> rfl

theorem record_failure_last (cb : CircuitBreaker) (now : ℚ) :
    (cb.record_failure now).last_failure_time = some now := by
  unfold CircuitBreaker.record_failure
  dsimp only
  split
  · rfl
  · split <;> rfl

/-! ### Claims -/

/-- C7: `should_retry(a, e)` is false whenever `a ≥ maxRetries`; for
`a < maxRetries` it returns exactly the external classifier's verdict,
and false when the classifier yields no verdict. -/
theorem C7_should_retry_policy {ε : Type} (cfg : RetryConfig)
    (classifier : ε → Option Bool) (attempt : ℕ) (e : ε) :
    (cfg.max_retries ≤ attempt →
      cfg.should_retry classifier attempt e = false) ∧
    (attempt < cfg.max_retries → ∀ v, classifier e = some v →
      cfg.should_retry classifier attempt e = v) ∧
    (attempt < cfg.max_retries → classifier e = none →
      cfg.should_retry classifier attempt e = false) := by
  unfold RetryConfig.should_retry
  refine ⟨fun h => by simp [h], fun h v hv => ?_, fun h hc => ?_⟩
  · simp [Nat.not_le.mpr h, hv]
  · simp [Nat.not_le.mpr h, hc]

/-- Witness for C7 at concrete inputs (default config, `maxRetries = 3`). -/
theorem C7_should_retry_policy_witness :
    RetryConfig.should_retry ({} : RetryConfig) (fun _ : ℕ => some true)
      3 0 = false ∧
    RetryConfig.should_retry ({} : RetryConfig) (fun _ : ℕ => some true)
      1 0 = true ∧
    RetryConfig.should_retry ({} : RetryConfig) (fun _ : ℕ => none)
      1 0 = false :=
  ⟨(C7_should_retry_policy {} (fun _ => some true) 3 0).1 (by decide),
   (C7_should_retry_policy {} (fun _ => some true) 1 0).2.1 (by decide)
     true rfl,
   (C7_should_retry_policy {} (fun _ => none) 1 0).2.2 (by decide) rfl⟩

/-- C6: `calculateDelay(a)` equals `d + u` floored at `0.1` where
`d = min(baseDelay * exponentialBase^a, maxDelay)` and the jitter sample
`u` lies in `±(d * jitterFraction)`; hence the result lies in
`[max(0.1, d*(1-jf)), max(0.1, d*(1+jf))]`; ignoring jitter the delay is
monotonically non-decreasing in the attempt index and clamped at
`maxDelay`. -/
theorem C6_calculate_delay_bounds (cfg : RetryConfig) (a : ℕ) (u : ℚ)
    (hb : 0 ≤ cfg.base_delay) (he : 1 ≤ cfg.exponential_base)
    (hu : |u| ≤ cfg.delayNoJitter a * cfg.jitter) :
    cfg.calculate_delay a u = max (1 / 10) (cfg.delayNoJitter a + u) ∧
    max (1 / 10) (cfg.delayNoJitter a * (1 - cfg.jitter)) ≤
      cfg.calculate_delay a u ∧
    cfg.calculate_delay a u ≤
      max (1 / 10) (cfg.delayNoJitter a * (1 + cfg.jitter)) ∧
    (∀ b, a ≤ b → cfg.delayNoJitter a ≤ cfg.delayNoJitter b) ∧
    cfg.delayNoJitter a ≤ cfg.max_delay := by
  have hdef : cfg.calculate_delay a u =
      max (1 / 10) (cfg.delayNoJitter a + u) := rfl
  have hlo : -(cfg.delayNoJitter a * cfg.jitter) ≤ u := neg_le_of_abs_le hu
  have hhi : u ≤ cfg.delayNoJitter a * cfg.jitter := le_of_abs_le hu
  refine ⟨hdef, ?_, ?_, ?_, min_le_right _ _⟩
  · rw [hdef]
    refine max_le_max le_rfl ?_
    nlinarith [hlo]
  · rw [hdef]
    refine max_le_max le_rfl ?_
    nlinarith [hhi]
  · intro b hab
    unfold RetryConfig.delayNoJitter
    refine min_le_min ?_ le_rfl
    exact mul_le_mul_of_nonneg_left (pow_le_pow_right₀ he hab) hb

/-- Witness for C6 with the default retry config at attempt 0, jitter
sample 0, comparing against attempt 2. -/
theorem C6_calculate_delay_bounds_witness :
    RetryConfig.calculate_delay {} 0 0 =
      max (1 / 10) (RetryConfig.delayNoJitter {} 0 + 0) ∧
    max (1 / 10) (RetryConfig.delayNoJitter {} 0 * (1 - (1 / 10 : ℚ))) ≤
      RetryConfig.calculate_delay {} 0 0 ∧
    RetryConfig.calculate_delay {} 0 0 ≤
      max (1 / 10) (RetryConfig.delayNoJitter {} 0 * (1 + (1 / 10 : ℚ))) ∧
    RetryConfig.delayNoJitter {} 0 ≤ RetryConfig.delayNoJitter {} 2 ∧
    RetryConfig.delayNoJitter {} 0 ≤ (60 : ℚ) := by
  have h := C6_calculate_delay_bounds {} 0 0 (by norm_num) (by norm_num)
    (by norm_num [RetryConfig.delayNoJitter])
  exact ⟨h.1, h.2.1, h.2.2.1, h.2.2.2.1 2 (by norm_num), h.2.2.2.2⟩

/-- C9: `CircuitBreaker.reset()` always yields Closed with zeroed
counters and cleared `lastFailureTime`; the middleware's `reset()`
resets the breaker, replaces the metrics with a fresh all-zero recorder,
and leaves the rate limiter's sliding-window logs unchanged. -/
theorem C9_reset_frame (mw : ProductionMiddleware) :
    (mw.circuit_breaker.reset).state_ = CircuitState.CLOSED ∧
    (mw.circuit_breaker.reset).failure_count = 0 ∧
    (mw.circuit_breaker.reset).success_count = 0 ∧
    (mw.circuit_breaker.reset).half_open_calls = 0 ∧
    (mw.circuit_breaker.reset).last_failure_time = none ∧
    (mw.reset).circuit_breaker = mw.circuit_breaker.reset ∧
    (mw.reset).metrics = MiddlewareMetrics.init ∧
    MiddlewareMetrics.init.total_requests = 0 ∧
    MiddlewareMetrics.init.failed_requests = 0 ∧
    MiddlewareMetrics.init.successful_requests = 0 ∧
    MiddlewareMetrics.init.retried_requests = 0 ∧
    (mw.reset).rate_limiter = mw.rate_limiter ∧
    (mw.reset).config = mw.config :=
  ⟨rfl, rfl, rfl, rfl, rfl, rfl, rfl, rfl, rfl, rfl, rfl, rfl, rfl⟩

/-- C4: on an Open breaker with `lastFailureTime = t` (a genuine,
nonzero wall-clock instant), a state read at `now` with
`now - t ≥ recoveryTimeout` transitions to HalfOpen exactly once,
zeroing `halfOpenCallsIssued` and `successCount`; subsequent reads of the
resulting breaker return HalfOpen unchanged; while `now - t <
recoveryTimeout` the read returns Open unchanged and `canExecute` is
false. -/
theorem C4_open_to_half_open (cb : CircuitBreaker) (t now : ℚ)
    (hst : cb.state_ = CircuitState.OPEN)
    (hlast : cb.last_failure_time = some t) (ht : t ≠ 0) :
    (cb.config.recovery_timeout ≤ now - t →
      cb.stateRead now =
        (CircuitState.HALF_OPEN,
         { cb with
            state_ := CircuitState.HALF_OPEN
            half_open_calls := 0
            success_count := 0 }) ∧
      ∀ now2,
        ({ cb with
            state_ := CircuitState.HALF_OPEN
            half_open_calls := 0
            success_count := 0 } : CircuitBreaker).stateRead now2 =
          (CircuitState.HALF_OPEN,
           { cb with
              state_ := CircuitState.HALF_OPEN
              half_open_calls := 0
              success_count := 0 })) ∧
    (now - t < cb.config.recovery_timeout →
      cb.stateRead now = (CircuitState.OPEN, cb) ∧
      cb.can_execute now = (false, cb)) := by
  constructor
  · intro hrec
    constructor
    · unfold CircuitBreaker.stateRead
      rw [hlast]
      simp [hst, ht, hrec]
    · intro now2
      unfold CircuitBreaker.stateRead
      simp
  · intro hrec
    have hread : cb.stateRead now = (CircuitState.OPEN, cb) := by
      unfold CircuitBreaker.stateRead
      rw [hlast]
      simp [hst, not_le.mpr hrec]
    refine ⟨hread, ?_⟩
    unfold CircuitBreaker.can_execute
    rw [hread]

/-- A concrete Open breaker (default config, last failure at `t = 5`),
used by witnesses. -/
def cbOpenEx : CircuitBreaker :=
  { config := {}, state_ := CircuitState.OPEN, failure_count := 5,
    success_count := 1, last_failure_time := some 5, half_open_calls := 2 }

/-- Witness for C4: `cbOpenEx` read at `now = 40` (past the 30s timeout),
re-read at `now = 41`, and read at `now = 20` (inside the timeout). -/
theorem C4_open_to_half_open_witness :
    (cbOpenEx.stateRead 40 =
      (CircuitState.HALF_OPEN,
       { cbOpenEx with
          state_ := CircuitState.HALF_OPEN
          half_open_calls := 0
          success_count := 0 }) ∧
     ({ cbOpenEx with
         state_ := CircuitState.HALF_OPEN
         half_open_calls := 0
         success_count := 0 } : CircuitBreaker).stateRead 41 =
       (CircuitState.HALF_OPEN,
        { cbOpenEx with
           state_ := CircuitState.HALF_OPEN
           half_open_calls := 0
           success_count := 0 })) ∧
    (cbOpenEx.stateRead 20 = (CircuitState.OPEN, cbOpenEx) ∧
     cbOpenEx.can_execute 20 = (false, cbOpenEx)) := by
  have h1 := (C4_open_to_half_open cbOpenEx 5 40 rfl rfl (by norm_num)).1
    (by norm_num [cbOpenEx])
  have h2 := (C4_open_to_half_open cbOpenEx 5 20 rfl rfl (by norm_num)).2
    (by norm_num [cbOpenEx])
  exact ⟨⟨h1.1, h1.2 41⟩, h2⟩

end Opta

namespace Opta

/-- C10: `recordFailure()` while the breaker is Open leaves it Open,
increments `failureCount`, and sets `lastFailureTime` to the current
time, so a state read within `recoveryTimeout` of that failure still
returns Open, and one at or after `recoveryTimeout` from it transitions
to HalfOpen. -/
theorem C10_failure_while_open_restarts_clock (cb : CircuitBreaker)
    (now : ℚ) (hst : cb.state_ = CircuitState.OPEN) :
    (cb.record_failure now).state_ = CircuitState.OPEN ∧
    (cb.record_failure now).failure_count = cb.failure_count + 1 ∧
    (cb.record_failure now).last_failure_time = some now ∧
    (∀ now2, now2 - now < cb.config.recovery_timeout →
      ((cb.record_failure now).stateRead now2).1 = CircuitState.OPEN) ∧
    (∀ now2, now ≠ 0 → cb.config.recovery_timeout ≤ now2 - now →
      ((cb.record_failure now).stateRead now2).1 =
        CircuitState.HALF_OPEN) := by
  have hrf : cb.record_failure now =
      { cb with
        failure_count := cb.failure_count + 1
        last_failure_time := some now } := by
    unfold CircuitBreaker.record_failure
    dsimp only
    rw [if_neg (by simp [hst]), if_neg (by simp [hst])]
  refine ⟨by rw [hrf]; exact hst, by rw [hrf], by rw [hrf], ?_, ?_⟩
  · intro now2 hlt
    rw [hrf]
    unfold CircuitBreaker.stateRead
    simp [hst, not_le.mpr hlt]
  · intro now2 hnz hge
    rw [hrf]
    unfold CircuitBreaker.stateRead
    simp [hst, hnz, hge]

/-- Witness for C10: a failure recorded on `cbOpenEx` at `now = 50`,
with reads at `now2 = 60` (inside the restarted window) and `now2 = 80`
(past it). -/
theorem C10_failure_while_open_restarts_clock_witness :
    (cbOpenEx.record_failure 50).state_ = CircuitState.OPEN ∧
    (cbOpenEx.record_failure 50).failure_count =
      cbOpenEx.failure_count + 1 ∧
    (cbOpenEx.record_failure 50).last_failure_time = some 50 ∧
    ((cbOpenEx.record_failure 50).stateRead 60).1 = CircuitState.OPEN ∧
    ((cbOpenEx.record_failure 50).stateRead 80).1 =
      CircuitState.HALF_OPEN := by
  have h := C10_failure_while_open_restarts_clock cbOpenEx 50 rfl
  exact ⟨h.1, h.2.1, h.2.2.1,
    h.2.2.2.1 60 (by norm_num [cbOpenEx]),
    h.2.2.2.2 80 (by norm_num) (by norm_num [cbOpenEx])⟩

end Opta

namespace Opta

theorem record_failure_of_open (cb : CircuitBreaker) (now : ℚ)
    (hst : cb.state_ = CircuitState.OPEN) :
    cb.record_failure now =
      { cb with
        failure_count := cb.failure_count + 1
        last_failure_time := some now } := by
  unfold CircuitBreaker.record_failure
  dsimp only
  rw [if_neg (by simp [hst]), if_neg (by simp [hst])]

theorem record_failure_of_closed (cb : CircuitBreaker) (now : ℚ)
    (hst : cb.state_ = CircuitState.CLOSED) :
    cb.record_failure now =
      if (cb.config.failure_threshold : ℤ) ≤ cb.failure_count + 1 then
        { cb with
          state_ := CircuitState.OPEN
          failure_count := cb.failure_count + 1
          last_failure_time := some now }
      else
        { cb with
          failure_count := cb.failure_count + 1
          last_failure_time := some now } := by
  unfold CircuitBreaker.record_failure
  dsimp only
  rw [if_neg (by simp [hst])]
  split
  · rw [if_pos]
    simp_all
  · rw [if_neg]
    simp_all

theorem recordFailures_of_open (ts : List ℚ) :
    ∀ cb : CircuitBreaker, cb.state_ = CircuitState.OPEN →
    (recordFailures cb ts).state_ = CircuitState.OPEN ∧
    (recordFailures cb ts).last_failure_time =
      ts.getLast?.or cb.last_failure_time := by
  induction ts with
  | nil => intro cb hst; exact ⟨hst, rfl⟩
  | cons t rest ih =>
      intro cb hst
      have hstep := record_failure_of_open cb t hst
      have hfold : recordFailures cb (t :: rest) =
          recordFailures (cb.record_failure t) rest := rfl
      rw [hfold, hstep]
      obtain ⟨h1, h2⟩ := ih
        { cb with
          failure_count := cb.failure_count + 1
          last_failure_time := some t } hst
      refine ⟨h1, ?_⟩
      rw [h2]
      cases rest with
      | nil => rfl
      | cons b l =>
          have : (b :: l).getLast?.isSome := by
            rw [List.getLast?_isSome]; simp
          obtain ⟨x, hx⟩ := Option.isSome_iff_exists.mp this
          simp [List.getLast?_cons_cons, hx, Option.or]

theorem getLast?_or_cons (t : ℚ) (rest : List ℚ) :
    rest.getLast?.or (some t) = (t :: rest).getLast? := by
  cases rest with
  | nil => rfl
  | cons b l =>
      have : (b :: l).getLast?.isSome := by
        rw [List.getLast?_isSome]; simp
      obtain ⟨x, hx⟩ := Option.isSome_iff_exists.mp this
      simp [List.getLast?_cons_cons, hx, Option.or]

theorem recordFailures_closed_opens (ts : List ℚ) :
    ∀ cb : CircuitBreaker, cb.state_ = CircuitState.CLOSED →
    0 ≤ cb.failure_count →
    (cb.config.failure_threshold : ℤ) ≤ cb.failure_count + ts.length →
    ts ≠ [] →
    (recordFailures cb ts).state_ = CircuitState.OPEN ∧
    (recordFailures cb ts).last_failure_time = ts.getLast? := by
  induction ts with
  | nil => intro _ _ _ _ h; exact absurd rfl h
  | cons t rest ih =>
      intro cb hst hfc hth _
      have hfold : recordFailures cb (t :: rest) =
          recordFailures (cb.record_failure t) rest := rfl
      have hstep := record_failure_of_closed cb t hst
      by_cases hopen : (cb.config.failure_threshold : ℤ) ≤ cb.failure_count + 1
      · rw [if_pos hopen] at hstep
        rw [hfold, hstep]
        obtain ⟨h1, h2⟩ := recordFailures_of_open rest
          { cb with
            state_ := CircuitState.OPEN
            failure_count := cb.failure_count + 1
            last_failure_time := some t } rfl
        refine ⟨h1, ?_⟩
        rw [h2]
        exact getLast?_or_cons t rest
      · rw [if_neg hopen] at hstep
        have hrest : rest ≠ [] := by
          intro hemp
          rw [hemp] at hth
          simp at hth
          omega
        have hth' : (cb.config.failure_threshold : ℤ) ≤
            (cb.failure_count + 1) + rest.length := by
          simp at hth
          linarith
        rw [hfold, hstep]
        obtain ⟨h1, h2⟩ := ih
          { cb with
            failure_count := cb.failure_count + 1
            last_failure_time := some t } hst
          (show (0 : ℤ) ≤ cb.failure_count + 1 by omega) hth' hrest
        refine ⟨h1, ?_⟩
        rw [h2]
        cases rest with
        | nil => exact absurd rfl hrest
        | cons b l => simp [List.getLast?_cons_cons]

/-- C3: on a Closed breaker every `recordFailure()` increments
`failureCount` and every `recordSuccess()` decrements it but never below
zero; after `failureThreshold` consecutive `recordFailure()` calls (no
intervening successes) the state is Open with `lastFailureTime` the time
of the last failure. -/
theorem C3_closed_counting (cb : CircuitBreaker) (now : ℚ) (ts : List ℚ)
    (hst : cb.state_ = CircuitState.CLOSED) :
    (cb.record_failure now).failure_count = cb.failure_count + 1 ∧
    (cb.record_success).failure_count = max 0 (cb.failure_count - 1) ∧
    0 ≤ (cb.record_success).failure_count ∧
    (0 ≤ cb.failure_count →
      ts.length = cb.config.failure_threshold →
      ∀ hne : ts ≠ [],
        (recordFailures cb ts).state_ = CircuitState.OPEN ∧
        (recordFailures cb ts).last_failure_time =
          some (ts.getLast hne)) := by
  have hsucc : cb.record_success =
      { cb with failure_count := max 0 (cb.failure_count - 1) } := by
    unfold CircuitBreaker.record_success
    rw [if_neg (by simp [hst]), if_pos hst]
  refine ⟨record_failure_failure_count cb now, by rw [hsucc],
    by rw [hsucc]; exact le_max_left _ _, ?_⟩
  intro hfc hlen hne
  have h := recordFailures_closed_opens ts cb hst hfc
    (by rw [hlen]; omega) hne
  refine ⟨h.1, ?_⟩
  rw [h.2, List.getLast?_eq_getLast ts hne]

/-- Witness for C3: fresh breaker with `failureThreshold = 3`, three
failures at times 1, 2, 3. -/
theorem C3_closed_counting_witness :
    ((CircuitBreaker.init { failure_threshold := 3 }).record_failure
        7).failure_count =
      (CircuitBreaker.init { failure_threshold := 3 }).failure_count + 1 ∧
    ((CircuitBreaker.init
        { failure_threshold := 3 }).record_success).failure_count =
      max 0 ((CircuitBreaker.init
        { failure_threshold := 3 }).failure_count - 1) ∧
    0 ≤ ((CircuitBreaker.init
        { failure_threshold := 3 }).record_success).failure_count ∧
    (recordFailures (CircuitBreaker.init { failure_threshold := 3 })
        [1, 2, 3]).state_ = CircuitState.OPEN ∧
    (recordFailures (CircuitBreaker.init { failure_threshold := 3 })
        [1, 2, 3]).last_failure_time = some 3 := by
  have h := C3_closed_counting (CircuitBreaker.init { failure_threshold := 3 })
    7 [1, 2, 3] rfl
  have h4 := h.2.2.2 (by decide) (by decide) (by decide)
  exact ⟨h.1, h.2.1, h.2.2.1, h4.1, h4.2⟩

end Opta

namespace Opta

theorem stateRead_of_half_open (cb : CircuitBreaker) (now : ℚ)
    (hst : cb.state_ = CircuitState.HALF_OPEN) :
    cb.stateRead now = (CircuitState.HALF_OPEN, cb) := by
  unfold CircuitBreaker.stateRead
  rw [if_neg (by simp [hst]), hst]

theorem can_execute_of_half_open (cb : CircuitBreaker) (now : ℚ)
    (hst : cb.state_ = CircuitState.HALF_OPEN) :
    cb.can_execute now =
      if cb.half_open_calls < cb.config.half_open_max_calls then
        (true, { cb with half_open_calls := cb.half_open_calls + 1 })
      else (false, cb) := by
  unfold CircuitBreaker.can_execute
  rw [stateRead_of_half_open cb now hst]

theorem canExecuteStateIter_eq (cb : CircuitBreaker) (now : ℚ)
    (hst : cb.state_ = CircuitState.HALF_OPEN)
    (h0 : cb.half_open_calls = 0) :
    ∀ j, canExecuteStateIter cb now j =
      { cb with
        half_open_calls := min j cb.config.half_open_max_calls } := by
  intro j
  induction j with
  | zero =>
      show cb = _
      cases cb
      simp_all
  | succ j ih =>
      show ((canExecuteStateIter cb now j).can_execute now).2 = _
      rw [ih, can_execute_of_half_open
        { cb with
          half_open_calls := min j cb.config.half_open_max_calls }
        now hst]
      by_cases hj : j < cb.config.half_open_max_calls
      · rw [if_pos (show min j cb.config.half_open_max_calls <
            cb.config.half_open_max_calls by omega)]
        show ({ cb with
          half_open_calls := min j cb.config.half_open_max_calls + 1 } :
            CircuitBreaker) = _
        congr 1
        omega
      · rw [if_neg (show ¬ min j cb.config.half_open_max_calls <
            cb.config.half_open_max_calls by omega)]
        show ({ cb with
          half_open_calls := min j cb.config.half_open_max_calls } :
            CircuitBreaker) = _
        congr 1
        omega

theorem record_success_of_half_open (cb : CircuitBreaker)
    (hst : cb.state_ = CircuitState.HALF_OPEN) :
    cb.record_success =
      if cb.config.success_threshold ≤ cb.success_count + 1 then
        { cb with
          success_count := cb.success_count + 1
          state_ := CircuitState.CLOSED
          failure_count := 0 }
      else { cb with success_count := cb.success_count + 1 } := by
  unfold CircuitBreaker.record_success
  rw [if_pos hst]

theorem record_failure_of_half_open (cb : CircuitBreaker) (now : ℚ)
    (hst : cb.state_ = CircuitState.HALF_OPEN) :
    cb.record_failure now =
      { cb with
        state_ := CircuitState.OPEN
        failure_count := cb.failure_count + 1
        last_failure_time := some now } := by
  unfold CircuitBreaker.record_failure
  dsimp only
  rw [if_pos (by simp [hst])]

theorem recordSuccesses_below (cb : CircuitBreaker)
    (hst : cb.state_ = CircuitState.HALF_OPEN)
    (h0 : cb.success_count = 0) :
    ∀ j, j < cb.config.success_threshold →
      recordSuccesses cb j = { cb with success_count := j } := by
  intro j
  induction j with
  | zero =>
      intro _
      show cb = _
      cases cb
      simp_all
  | succ j ih =>
      intro hj
      show (recordSuccesses cb j).record_success = _
      rw [ih (by omega), record_success_of_half_open
        { cb with success_count := j } hst]
      rw [if_neg (show ¬ cb.config.success_threshold ≤ j + 1 by omega)]

/-- C5: for a HalfOpen breaker (fresh half-open cycle): the `j`-th
`canExecute()` call returns true and bumps `halfOpenCallsIssued` to
`j + 1` exactly while `j < halfOpenMaxCalls`, and false afterwards;
exactly `successThreshold` consecutive `recordSuccess()` calls close the
breaker and zero `failureCount` (fewer leave it HalfOpen); a single
`recordFailure()` returns it to Open regardless of prior successes. -/
theorem C5_half_open_behavior (cb : CircuitBreaker) (now : ℚ)
    (hst : cb.state_ = CircuitState.HALF_OPEN) :
    (cb.half_open_calls = 0 → ∀ j,
      (((canExecuteStateIter cb now j).can_execute now).1 =
        decide (j < cb.config.half_open_max_calls)) ∧
      (j < cb.config.half_open_max_calls →
        ((canExecuteStateIter cb now j).can_execute
            now).2.half_open_calls = j + 1)) ∧
    (cb.success_count = 0 → 1 ≤ cb.config.success_threshold →
      (recordSuccesses cb cb.config.success_threshold).state_ =
        CircuitState.CLOSED ∧
      (recordSuccesses cb cb.config.success_threshold).failure_count =
        0 ∧
      ∀ j < cb.config.success_threshold,
        (recordSuccesses cb j).state_ = CircuitState.HALF_OPEN) ∧
    (cb.record_failure now).state_ = CircuitState.OPEN := by
  refine ⟨?_, ?_, ?_⟩
  · intro h0 j
    rw [canExecuteStateIter_eq cb now hst h0 j,
      can_execute_of_half_open
        { cb with
          half_open_calls := min j cb.config.half_open_max_calls }
        now hst]
    constructor
    · by_cases hj : j < cb.config.half_open_max_calls
      · rw [if_pos (show min j cb.config.half_open_max_calls <
            cb.config.half_open_max_calls by omega)]
        simp [hj]
      · rw [if_neg (show ¬ min j cb.config.half_open_max_calls <
            cb.config.half_open_max_calls by omega)]
        simp [hj]
    · intro hj
      rw [if_pos (show min j cb.config.half_open_max_calls <
          cb.config.half_open_max_calls by omega)]
      show min j cb.config.half_open_max_calls + 1 = j + 1
      omega
  · intro h0 hth
    obtain ⟨k, hk⟩ : ∃ k, cb.config.success_threshold = k + 1 :=
      ⟨cb.config.success_threshold - 1, by omega⟩
    have hstep : recordSuccesses cb cb.config.success_threshold =
        (recordSuccesses cb k).record_success := by rw [hk]; rfl
    have hbelow := recordSuccesses_below cb hst h0 k (by omega)
    rw [hstep, hbelow, record_success_of_half_open
      { cb with success_count := k } hst]
    rw [if_pos (show cb.config.success_threshold ≤ k + 1 by omega)]
    refine ⟨rfl, rfl, ?_⟩
    intro j hj
    rw [recordSuccesses_below cb hst h0 j hj]
    exact hst
  · rw [record_failure_of_half_open cb now hst]

/-- A concrete HalfOpen breaker at the start of a half-open cycle
(default config: `halfOpenMaxCalls = 3`, `successThreshold = 2`). -/
def cbHalfOpenEx : CircuitBreaker :=
  { config := {}, state_ := CircuitState.HALF_OPEN, failure_count := 5,
    success_count := 0, last_failure_time := some 5,
    half_open_calls := 0 }

/-- Witness for C5: calls 0..2 admitted, call 3 rejected; two successes
close the breaker, one leaves it HalfOpen; one failure reopens it. -/
theorem C5_half_open_behavior_witness :
    ((canExecuteStateIter cbHalfOpenEx 6 0).can_execute 6).1 = true ∧
    ((canExecuteStateIter cbHalfOpenEx 6 0).can_execute
        6).2.half_open_calls = 1 ∧
    ((canExecuteStateIter cbHalfOpenEx 6 2).can_execute 6).1 = true ∧
    ((canExecuteStateIter cbHalfOpenEx 6 3).can_execute 6).1 = false ∧
    (recordSuccesses cbHalfOpenEx 2).state_ = CircuitState.CLOSED ∧
    (recordSuccesses cbHalfOpenEx 2).failure_count = 0 ∧
    (recordSuccesses cbHalfOpenEx 1).state_ = CircuitState.HALF_OPEN ∧
    (cbHalfOpenEx.record_failure 6).state_ = CircuitState.OPEN := by
  have h := C5_half_open_behavior cbHalfOpenEx 6 rfl
  have hce := h.1 rfl
  have hsucc := h.2.1 rfl (by decide)
  exact ⟨by rw [(hce 0).1]; decide, (hce 0).2 (by decide),
    by rw [(hce 2).1]; decide, by rw [(hce 3).1]; decide,
    hsucc.1, hsucc.2.1, hsucc.2.2 1 (by decide), h.2.2⟩

end Opta

namespace Opta

/-- C2: whenever the pruned request log holds at least
`maxRequests = int(requestsPerMinute * burstAllowance)` entries,
`canProceed` denies with `waitSeconds = max(0.1, oldest - windowStart)`,
which is positive (`t0` below is the head of the pruned log — the oldest
remaining request timestamp, as witnessed by the sortedness conjunct);
once every logged request is older than 60 seconds (and so, by the state
invariant relating token entries to request timestamps, every token
entry too), `canProceed` returns `(true, None)` again. -/
theorem C2_request_window_cap (rl : RateLimiter) (now : ℚ) (est : ℕ) :
    (∀ t0, (rl.pruneReqs now).head? = some t0 →
      rl.config.maxRequests ≤ ((rl.pruneReqs now).length : ℤ) →
      (rl.can_proceed now est =
        some ((false, some (max (1 / 10) (t0 - (now - 60)))),
          { rl with
            request_timestamps := rl.pruneReqs now
            token_usage := rl.pruneToks now }) ∧
       0 < max (1 / 10) (t0 - (now - 60)) ∧
       (rl.request_timestamps.Sorted (· ≤ ·) →
         ∀ t ∈ rl.pruneReqs now, t0 ≤ t))) ∧
    ((∀ t ∈ rl.request_timestamps, t < now - 60) →
     (∀ p ∈ rl.token_usage, p.1 ∈ rl.request_timestamps) →
     1 ≤ rl.config.maxRequests →
     rl.can_proceed now est =
       some ((true, none),
         { rl with request_timestamps := [], token_usage := [] })) := by
  constructor
  · intro t0 hhead hcap
    refine ⟨?_, ?_, ?_⟩
    · unfold RateLimiter.can_proceed
      rw [if_pos hcap, hhead]
    · exact lt_max_iff.mpr (Or.inl (by norm_num))
    · intro hsort t ht
      have hsorted : (rl.pruneReqs now).Sorted (· ≤ ·) :=
        List.Pairwise.sublist (List.dropWhile_sublist _) hsort
      cases hl : rl.pruneReqs now with
      | nil => rw [hl] at hhead; simp at hhead
      | cons a res =>
          rw [hl] at hhead ht hsorted
          simp only [List.head?_cons, Option.some.injEq] at hhead
          subst hhead
          rcases List.mem_cons.mp ht with h | h
          · subst h; exact le_refl _
          · exact (List.pairwise_cons.mp hsorted).1 t h
  · intro hold hwf hmax
    have hr : rl.pruneReqs now = [] := by
      unfold RateLimiter.pruneReqs
      rw [List.dropWhile_eq_nil_iff]
      intro x hx
      simpa using hold x hx
    have ht : rl.pruneToks now = [] := by
      unfold RateLimiter.pruneToks
      rw [List.dropWhile_eq_nil_iff]
      intro p hp
      simpa using hold p.1 (hwf p hp)
    unfold RateLimiter.can_proceed
    rw [hr, ht]
    rw [if_neg (by simpa using by omega)]
    dsimp only
    split
    · rfl
    · rfl

/-- A two-requests-per-minute limiter (burst 1.0) holding requests at
times 10 and 20, used by the C2 witness. -/
def rlFullEx : RateLimiter :=
  { config := { requests_per_minute := 2, tokens_per_minute := 100,
                burst_allowance := 1 },
    request_timestamps := [10, 20], token_usage := [] }

/-- The same limiter with a single aged-out request and token entry,
used by the C2 witness. -/
def rlAgedEx : RateLimiter :=
  { config := { requests_per_minute := 2, tokens_per_minute := 100,
                burst_allowance := 1 },
    request_timestamps := [10], token_usage := [(10, 5)] }

theorem rlEx_maxRequests : rlFullEx.config.maxRequests = 2 := by
  unfold rlFullEx RateLimiterConfig.maxRequests pyInt
  rw [if_neg (by norm_num)]
  rw [Int.floor_eq_iff]
  norm_num

/-- Witness for C2: `rlFullEx` checked at `now = 30` denies with wait
`max(0.1, 10 - (30 - 60)) = 40`; `rlAgedEx` checked at `now = 100`
(both entries older than 60s) admits. -/
theorem C2_request_window_cap_witness :
    (rlFullEx.can_proceed 30 0 =
      some ((false, some (max (1 / 10) (10 - (30 - 60)))),
        { rlFullEx with
          request_timestamps := rlFullEx.pruneReqs 30
          token_usage := rlFullEx.pruneToks 30 }) ∧
     (0 : ℚ) < max (1 / 10) (10 - (30 - 60)) ∧
     (10 : ℚ) ≤ 20) ∧
    rlAgedEx.can_proceed 100 0 =
      some ((true, none),
        { rlAgedEx with request_timestamps := [], token_usage := [] }) := by
  have hprune : rlFullEx.pruneReqs 30 = [10, 20] := by
    simp [RateLimiter.pruneReqs, rlFullEx]
    norm_num
  have h1 := (C2_request_window_cap rlFullEx 30 0).1 10
    (by rw [hprune]; rfl) (by rw [hprune, rlEx_maxRequests]; norm_num)
  have h2 := (C2_request_window_cap rlAgedEx 100 0).2
    (by intro t htm; simp [rlAgedEx] at htm; subst htm; norm_num)
    (by intro p hp; simp [rlAgedEx] at hp ⊢; simp [hp])
    (by rw [show rlAgedEx.config = rlFullEx.config from rfl,
      rlEx_maxRequests]; norm_num)
  exact ⟨⟨h1.1, h1.2.1,
    h1.2.2 (by simp [rlFullEx, List.sorted_cons]; norm_num) 20
      (by rw [hprune]; simp)⟩, h2⟩

end Opta

namespace Opta

/-- C1 (amended): with the request check passing, if the pruned token
log is nonempty (its head `p0` is the oldest token entry) and
`sum(loggedTokens) + estimatedTokens > maxTokens`, `canProceed` denies
with wait `max(0.1, p0.timestamp - windowStart)`; but when the pruned
token log is empty, `canProceed` allows regardless of `estimatedTokens`
(the source's `if self._token_usage:` guard falls through to
`return True, None`). -/
theorem C1_token_window_cap (rl : RateLimiter) (now : ℚ) (est : ℕ)
    (hreq : ((rl.pruneReqs now).length : ℤ) < rl.config.maxRequests) :
    (∀ p0, (rl.pruneToks now).head? = some p0 →
      rl.config.maxTokens <
        ((((rl.pruneToks now).map Prod.snd).sum : ℤ) + (est : ℤ)) →
      rl.can_proceed now est =
        some ((false, some (max (1 / 10) (p0.1 - (now - 60)))),
          { rl with
            request_timestamps := rl.pruneReqs now
            token_usage := rl.pruneToks now })) ∧
    (rl.pruneToks now = [] →
      rl.can_proceed now est =
        some ((true, none),
          { rl with
            request_timestamps := rl.pruneReqs now
            token_usage := rl.pruneToks now })) := by
  constructor
  · intro p0 hhead hover
    unfold RateLimiter.can_proceed
    rw [if_neg (not_le.mpr hreq), if_pos hover, hhead]
  · intro htk
    unfold RateLimiter.can_proceed
    rw [if_neg (not_le.mpr hreq), htk]
    dsimp only
    split
    · rfl
    · rfl

/-- A limiter whose token cap is 100 (burst 1.0) with empty logs, used
by the C1 counterexample and witness. -/
def rlTokEx : RateLimiter :=
  { config := { requests_per_minute := 60, tokens_per_minute := 100,
                burst_allowance := 1 },
    request_timestamps := [], token_usage := [] }

theorem rlTokEx_maxTokens : rlTokEx.config.maxTokens = 100 := by
  unfold rlTokEx RateLimiterConfig.maxTokens pyInt
  rw [if_neg (by norm_num)]
  rw [Int.floor_eq_iff]
  norm_num

theorem rlTokEx_maxRequests : rlTokEx.config.maxRequests = 60 := by
  unfold rlTokEx RateLimiterConfig.maxRequests pyInt
  rw [if_neg (by norm_num)]
  rw [Int.floor_eq_iff]
  norm_num

/-- Counterexample to C1 as stated: on `rlTokEx` (empty token log,
`maxTokens = 100`) with `estimatedTokens = 101`, the premise
`sum(loggedTokens) + estimatedTokens > maxTokens` holds, yet
`canProceed` returns `(true, None)` instead of denying. -/
theorem C1_token_window_cap_counterexample :
    rlTokEx.can_proceed 1000 101 = some ((true, none), rlTokEx) ∧
    rlTokEx.config.maxTokens <
      ((((rlTokEx.pruneToks 1000).map Prod.snd).sum : ℤ) + (101 : ℤ)) := by
  constructor
  · unfold RateLimiter.can_proceed
    rw [if_neg]
    · rw [if_pos]
      · rfl
      · rw [rlTokEx_maxTokens]
        show (100 : ℤ) < ((List.map Prod.snd (rlTokEx.pruneToks 1000)).sum : ℤ) + 101
        simp [RateLimiter.pruneToks, rlTokEx]
    · rw [rlTokEx_maxRequests]
      simp [RateLimiter.pruneReqs, rlTokEx]
  · rw [rlTokEx_maxTokens]
    simp [RateLimiter.pruneToks, rlTokEx]

/-- A limiter holding one request and one 100-token entry at time 990,
used by the C1 witness. -/
def rlTokFullEx : RateLimiter :=
  { config := { requests_per_minute := 60, tokens_per_minute := 100,
                burst_allowance := 1 },
    request_timestamps := [990], token_usage := [(990, 100)] }

/-- Witness for C1 (amended): `rlTokFullEx` at `now = 1000` with
`estimatedTokens = 1` denies with wait `max(0.1, 990 - 940) = 50`;
`rlTokEx` (empty token log) at the same instant allows even with
`estimatedTokens = 101`. -/
theorem C1_token_window_cap_witness :
    rlTokFullEx.can_proceed 1000 1 =
      some ((false, some (max (1 / 10) (990 - ((1000 : ℚ) - 60)))),
        { rlTokFullEx with
          request_timestamps := rlTokFullEx.pruneReqs 1000
          token_usage := rlTokFullEx.pruneToks 1000 }) ∧
    rlTokEx.can_proceed 1000 101 =
      some ((true, none),
        { rlTokEx with
          request_timestamps := rlTokEx.pruneReqs 1000
          token_usage := rlTokEx.pruneToks 1000 }) := by
  have hpr : rlTokFullEx.pruneReqs 1000 = [990] := by
    simp [RateLimiter.pruneReqs, rlTokFullEx]
    norm_num
  have hpt : rlTokFullEx.pruneToks 1000 = [(990, 100)] := by
    simp [RateLimiter.pruneToks, rlTokFullEx]
    norm_num
  have hmr : rlTokFullEx.config.maxRequests = 60 := rlTokEx_maxRequests
  have hmt : rlTokFullEx.config.maxTokens = 100 := rlTokEx_maxTokens
  constructor
  · exact (C1_token_window_cap rlTokFullEx 1000 1
        (by rw [hpr, hmr]; norm_num)).1 (990, 100)
      (by rw [hpt]; rfl)
      (by rw [hpt, hmt]; norm_num)
  · exact (C1_token_window_cap rlTokEx 1000 101
        (by rw [rlTokEx_maxRequests]
            simp [RateLimiter.pruneReqs, rlTokEx])).2
      (by simp [RateLimiter.pruneToks, rlTokEx])

end Opta

namespace Opta

theorem maxRequests_default : RateLimiterConfig.maxRequests {} = 90 := by
  unfold RateLimiterConfig.maxRequests pyInt
  rw [if_neg (by norm_num)]
  rw [Int.floor_eq_iff]
  norm_num

theorem maxTokens_default : RateLimiterConfig.maxTokens {} = 150000 := by
  unfold RateLimiterConfig.maxTokens pyInt
  rw [if_neg (by norm_num)]
  rw [Int.floor_eq_iff]
  norm_num

/-- C8: on an enabled middleware whose admission checks pass, an
operation error classified non-retryable on attempt 0 is re-raised as
that very error (never wrapped), `failedRequests` grows by exactly 1,
`retriedRequests` is unchanged, and the breaker's failure count grows by
exactly 1. -/
theorem C8_nonretryable_fails_fast {ε α : Type}
    (mw : ProductionMiddleware) (now : ℚ) (est : ℕ)
    (attempts : ℕ → AttemptOutcome ε α) (classifier : ε → Option Bool)
    (tokensOf : α → ℕ) (e : ε) (rl1 : RateLimiter)
    (hen : mw.config.enabled = true)
    (hce : (mw.circuit_breaker.can_execute now).1 = true)
    (hrl : mw.rate_limiter.can_proceed now est = some ((true, none), rl1))
    (hop : (attempts 0).result = Except.error e)
    (hsr : mw.config.retry.should_retry classifier 0 e = false) :
    ∃ mw' : ProductionMiddleware,
      mw.execute now est attempts classifier tokensOf =
        some (ExecOutcome.raised e, mw') ∧
      mw'.metrics.failed_requests = mw.metrics.failed_requests + 1 ∧
      mw'.metrics.retried_requests = mw.metrics.retried_requests ∧
      mw'.circuit_breaker.failure_count =
        mw.circuit_breaker.failure_count + 1 := by
  unfold ProductionMiddleware.execute
  rw [if_neg (by rw [hen]; simp)]
  dsimp only
  rw [if_neg (by rw [hce]; simp), hrl]
  dsimp only
  rw [if_neg (by simp)]
  have hloop : executeLoop mw.config.retry classifier tokensOf attempts
      (mw.config.retry.max_retries + 1) 0 none now
      (mw.circuit_breaker.can_execute now).2 rl1
      { mw.metrics with
        total_requests := mw.metrics.total_requests + 1 } =
      { outcome := ExecOutcome.raised e
        cb := ((mw.circuit_breaker.can_execute now).2).record_failure
          (attempts 0).t_end
        rl := rl1
        m := { mw.metrics with
          total_requests := mw.metrics.total_requests + 1
          failed_requests := mw.metrics.failed_requests + 1 } } := by
    unfold executeLoop
    dsimp only
    rw [hop]
    dsimp only
    rw [hsr]
    simp
  rw [hloop]
  refine ⟨_, rfl, rfl, rfl, ?_⟩
  rw [record_failure_failure_count, can_execute_failure_count]

/-- The concrete middleware, attempts, classifier and token extractor of
the C8 witness: a fresh default middleware and an operation that raises
error `7` (classified non-retryable) on every attempt. -/
def mwEx : ProductionMiddleware := ProductionMiddleware.init {}

def attemptsEx : ℕ → AttemptOutcome ℕ ℕ :=
  fun _ => { result := Except.error 7, t_start := 100, t_end := 101 }

/-- Witness for C8: executing `mwEx` at `now = 100` with `attemptsEx`
raises `7`, bumps `failedRequests` and the breaker failure count by one,
and leaves `retriedRequests` unchanged. -/
theorem C8_nonretryable_fails_fast_witness :
    ∃ mw' : ProductionMiddleware,
      mwEx.execute 100 0 attemptsEx (fun _ => some false)
          (fun _ => 0) =
        some (ExecOutcome.raised 7, mw') ∧
      mw'.metrics.failed_requests = mwEx.metrics.failed_requests + 1 ∧
      mw'.metrics.retried_requests = mwEx.metrics.retried_requests ∧
      mw'.circuit_breaker.failure_count =
        mwEx.circuit_breaker.failure_count + 1 :=
  C8_nonretryable_fails_fast mwEx 100 0 attemptsEx (fun _ => some false)
    (fun _ => 0) 7 (RateLimiter.init {}) rfl rfl
    (by
      unfold mwEx ProductionMiddleware.init RateLimiter.can_proceed
      rw [if_neg]
      · rw [if_neg]
        · rfl
        · simp [RateLimiter.pruneToks, RateLimiter.init, maxTokens_default]
      · simp [RateLimiter.pruneReqs, RateLimiter.init, maxRequests_default])
    rfl rfl

end Opta
